import Mathlib

/-!
# Verification of `dropcheck` (petertodd/dropcheck, `src/lib.rs`)

A shallow embedding of the crate's three components:

* `DropState` — the per-token destruction counter (Rust: `AtomicUsize`).
  The counter is modelled as a `Nat`; the atomics (`load`/`swap` with
  `Ordering::SeqCst`) are modelled as sequential reads and updates, since every
  claim here is about their functional outcome, not the memory ordering.
* `DropToken` — holds a strong reference to its `DropState` and a weak
  back-reference to the `DropCheck` set.
* `DropCheck` — the registry, an `Arc<RwLock<Vec<Arc<DropState>>>>`.

Rust `panic!` is a fatal abort; every fallible operation is embedded as
`Except String α` carrying the panic message.  Heap sharing is modelled by a
system state `Sys` that owns every cell ever created (`cells`, indexed by
allocation order); the registry's `Vec` is the list `reg` of indices into
`cells`, and a `DropToken`'s strong `Arc<DropState>` is its cell's index.
The token's `Weak` back-reference upgrades exactly when it was created from a
live registry (`hasSet`) and the registry is still alive (`regAlive`).
-/

/-- Rust `DropState`: a single destruction counter (`count: AtomicUsize`). -/
structure DropState where
  count : Nat
  deriving Repr, DecidableEq

/-- Rust `DropState::new()`: a fresh cell, counter `0`. -/
def DropState.new : DropState := ⟨0⟩

/-- Rust `DropState::is_not_dropped`:
`match self.count.load(SeqCst) { 0 => true, 1 => false, x => panic!("invalid drop count: {}", x) }`. -/
def DropState.is_not_dropped (s : DropState) : Except String Bool :=
  match s.count with
  | 0 => .ok true
  | 1 => .ok false
  | x => .error ("invalid drop count: " ++ toString x)

/-- Rust `DropState::is_dropped`: `!self.is_not_dropped()` (a panic propagates). -/
def DropState.is_dropped (s : DropState) : Except String Bool := do
  let b ← s.is_not_dropped
  pure (!b)

/-- Rust `DropState::set_dropped`:
`match self.count.swap(1, SeqCst) { 0 => {}, 1 => panic!("already dropped"), x => panic!("invalid drop count: {}", x) }`.
On success the counter is left at `1` (the `swap` already stored it). -/
def DropState.set_dropped (s : DropState) : Except String DropState :=
  match s.count with
  | 0 => .ok ⟨1⟩
  | 1 => .error "already dropped"
  | x => .error ("invalid drop count: " ++ toString x)

/-- Rust `impl Drop for DropState`:
`match self.count.get_mut() { 1 => {}, 0 => panic!("token not dropped"), _ => panic!("invalid drop count: {}") }`.
Note the source's `_` arm passes no argument to the format string, so (pre-2021
editions) the panic message is the literal text `invalid drop count: {}`. -/
def DropState.dropImpl (s : DropState) : Except String Unit :=
  match s.count with
  | 1 => .ok ()
  | 0 => .error "token not dropped"
  | _ => .error "invalid drop count: \x7b\x7d"

/-- Rust `DropCheck::none_dropped`:
`self.set.read().unwrap().iter().all(|state| state.is_not_dropped())`, embedded
over the locked `Vec`'s contents; `all` short-circuits on `false` and a panic
inside the closure propagates. -/
def none_dropped : List DropState → Except String Bool
  | [] => .ok true
  | s :: rest =>
    match s.is_not_dropped with
    | .ok true => none_dropped rest
    | .ok false => .ok false
    | .error e => .error e

/-- Rust `DropCheck::all_dropped`:
`self.set.read().unwrap().iter().all(|state| state.is_dropped())`. -/
def all_dropped : List DropState → Except String Bool
  | [] => .ok true
  | s :: rest =>
    match s.is_dropped with
    | .ok true => all_dropped rest
    | .ok false => .ok false
    | .error e => .error e

/-- Rust `impl Drop for DropCheck`:
`assert!(self.all_dropped(), "not all tokens dropped")`, over the locked
`Vec`'s contents. -/
def dropCheckDrop (l : List DropState) : Except String Unit :=
  match all_dropped l with
  | .ok true => .ok ()
  | .ok false => .error "not all tokens dropped"
  | .error e => .error e

/-- Rust `DropToken`: `state` is the index (allocation id) of its cell in the
system heap; `hasSet` records whether its `set: Weak<…>` field was created by
`Arc::downgrade` on a live registry (`true`) or is `Weak::new()` (`false`). -/
structure DropToken where
  hasSet : Bool
  state : Nat
  deriving Repr, DecidableEq

/-- The whole-system state: `cells` is every `DropState` ever allocated, in
allocation order (an index into it stands for an `Arc<DropState>`); `reg` is
the registry's `Vec<Arc<DropState>>` as a list of such indices; `regAlive`
records whether the `DropCheck` itself is still alive (so its `Weak`
back-references still upgrade). -/
structure Sys where
  regAlive : Bool
  cells : List DropState
  reg : List Nat
  deriving Repr, DecidableEq

/-- `DropCheck::new()` / `Default`: empty set. -/
def Sys.init : Sys := ⟨true, [], []⟩

/-- The registry's view of its `Vec`: the cells its entries point to. -/
def Sys.regCells (s : Sys) : List DropState :=
  s.reg.filterMap fun i => s.cells.get? i

/-- Rust `DropCheck::token`: `let state = DropState::new(); self.push(Arc::clone(&state));`
then a `DropToken` with `set: Arc::downgrade(&self.set)` and that state. -/
def Sys.token (s : Sys) : Sys × DropToken :=
  (⟨s.regAlive, s.cells ++ [DropState.new], s.reg ++ [s.cells.length]⟩,
   ⟨true, s.cells.length⟩)

/-- Rust `DropCheck::pair`: like `token`, but also returns a second
`Arc::clone` of the same state (the same cell index). -/
def Sys.pair (s : Sys) : Sys × DropToken × Nat :=
  (⟨s.regAlive, s.cells ++ [DropState.new], s.reg ++ [s.cells.length]⟩,
   ⟨true, s.cells.length⟩, s.cells.length)

/-- Rust `impl Clone for DropToken`: allocate `DropState::new()`; if
`self.set.upgrade()` succeeds (the token has a real back-reference and the
registry is still alive), push the new cell into the registry and keep the
back-reference; otherwise build the token with `Weak::new()` and the new,
unregistered cell. -/
def DropToken.clone (t : DropToken) (s : Sys) : Sys × DropToken :=
  if t.hasSet && s.regAlive then
    (⟨s.regAlive, s.cells ++ [DropState.new], s.reg ++ [s.cells.length]⟩,
     ⟨true, s.cells.length⟩)
  else
    (⟨s.regAlive, s.cells ++ [DropState.new], s.reg⟩,
     ⟨false, s.cells.length⟩)

/-- Rust `impl Drop for DropToken`: `self.state.set_dropped()` — the registry
is not consulted at all.  The `none` branch is a model artifact for a token id
outside the heap, which the program never constructs. -/
def Sys.dropToken (s : Sys) (t : DropToken) : Except String Sys :=
  match s.cells.get? t.state with
  | none => .error "invalid token id"
  | some c =>
    (c.set_dropped).map fun c1 => ⟨s.regAlive, s.cells.set t.state c1, s.reg⟩

/-- The registry states the program can actually build: every `Sys` produced
from `DropCheck::new()` by issuing tokens and pairs, cloning tokens, dropping
tokens, and dropping the registry itself. -/
inductive Sys.Reachable : Sys → Prop
  | init : Sys.Reachable Sys.init
  | token {s : Sys} : Sys.Reachable s → Sys.Reachable (s.token).1
  | pair {s : Sys} : Sys.Reachable s → Sys.Reachable (s.pair).1
  | clone {s : Sys} (t : DropToken) : Sys.Reachable s → Sys.Reachable (t.clone s).1
  | dropTok {s s' : Sys} (t : DropToken) : Sys.Reachable s →
      s.dropToken t = .ok s' → Sys.Reachable s'
  | die {s : Sys} : Sys.Reachable s → Sys.Reachable ⟨false, s.cells, s.reg⟩

/-- `DropCheck::none_dropped` run against a registry state. -/
def Sys.noneDropped (s : Sys) : Except String Bool := none_dropped s.regCells

/-- `DropCheck::all_dropped` run against a registry state. -/
def Sys.allDropped (s : Sys) : Except String Bool := all_dropped s.regCells

/-- `impl Drop for DropCheck` run against a registry state. -/
def Sys.dropReg (s : Sys) : Except String Unit := dropCheckDrop s.regCells

/-! ## Evaluation lemmas for the three counter values -/

theorem is_not_dropped_zero : DropState.is_not_dropped ⟨0⟩ = .ok true := rfl

theorem is_not_dropped_one : DropState.is_not_dropped ⟨1⟩ = .ok false := rfl

theorem is_not_dropped_ge_two (n : Nat) :
    DropState.is_not_dropped ⟨n + 2⟩ = .error ("invalid drop count: " ++ toString (n + 2)) := rfl

theorem is_dropped_zero : DropState.is_dropped ⟨0⟩ = .ok false := rfl

theorem is_dropped_one : DropState.is_dropped ⟨1⟩ = .ok true := rfl

theorem is_dropped_ge_two (n : Nat) :
    DropState.is_dropped ⟨n + 2⟩ = .error ("invalid drop count: " ++ toString (n + 2)) := rfl

theorem set_dropped_eq_ok {s s' : DropState} (h : s.set_dropped = .ok s') : s' = ⟨1⟩ := by
  obtain ⟨c⟩ := s
  match c with
  | 0 => exact (Except.ok.inj h).symm
  | 1 => exact absurd h (by simp [DropState.set_dropped])
  | n + 2 => exact absurd h (by simp [DropState.set_dropped])

/-! ## Aggregate queries as total functions on legal states -/

theorem none_dropped_eq_of_le_one (l : List DropState) (h : ∀ s ∈ l, s.count ≤ 1) :
    none_dropped l = .ok (l.all fun s => s.count == 0) := by
  induction l with
  | nil => rfl
  | cons s rest ih =>
    obtain ⟨c⟩ := s
    have hc : c ≤ 1 := h ⟨c⟩ (List.mem_cons_self _ _)
    have hrest := ih fun x hx => h x (List.mem_cons_of_mem _ hx)
    interval_cases c
    · simp [none_dropped, is_not_dropped_zero, hrest]
    · simp [none_dropped, is_not_dropped_one]

theorem all_dropped_eq_of_le_one (l : List DropState) (h : ∀ s ∈ l, s.count ≤ 1) :
    all_dropped l = .ok (l.all fun s => s.count == 1) := by
  induction l with
  | nil => rfl
  | cons s rest ih =>
    obtain ⟨c⟩ := s
    have hc : c ≤ 1 := h ⟨c⟩ (List.mem_cons_self _ _)
    have hrest := ih fun x hx => h x (List.mem_cons_of_mem _ hx)
    interval_cases c
    · simp [all_dropped, is_dropped_zero]
    · simp [all_dropped, is_dropped_one, hrest]

theorem none_dropped_iff_all_zero (l : List DropState) :
    none_dropped l = .ok true ↔ ∀ s ∈ l, s.count = 0 := by
  induction l with
  | nil => simp [none_dropped]
  | cons s rest ih =>
    obtain ⟨c⟩ := s
    match c with
    | 0 => simp [none_dropped, is_not_dropped_zero, ih]
    | 1 => simp [none_dropped, is_not_dropped_one]
    | n + 2 => simp [none_dropped, is_not_dropped_ge_two]

theorem all_dropped_iff_all_one (l : List DropState) :
    all_dropped l = .ok true ↔ ∀ s ∈ l, s.count = 1 := by
  induction l with
  | nil => simp [all_dropped]
  | cons s rest ih =>
    obtain ⟨c⟩ := s
    match c with
    | 0 => simp [all_dropped, is_dropped_zero]
    | 1 => simp [all_dropped, is_dropped_one, ih]
    | n + 2 => simp [all_dropped, is_dropped_ge_two]

/-! ## The reachability invariant -/

theorem clone_cells (t : DropToken) (s : Sys) :
    (t.clone s).1.cells = s.cells ++ [DropState.new] := by
  unfold DropToken.clone
  split <;> rfl

/-- Every counter the program ever stores is `0` (at allocation) or `1`
(stored by `set_dropped`'s `swap(1, _)`); no operation writes anything else. -/
theorem Sys.Reachable.counts_le_one {s : Sys} (h : s.Reachable) :
    ∀ c ∈ s.cells, c.count ≤ 1 := by
  induction h with
  | init => intro c hc; simp [Sys.init] at hc
  | token _ ih =>
    intro c hc
    simp only [Sys.token, List.mem_append, List.mem_singleton] at hc
    rcases hc with h1 | h1
    · exact ih c h1
    · subst h1; exact Nat.zero_le 1
  | pair _ ih =>
    intro c hc
    simp only [Sys.pair, List.mem_append, List.mem_singleton] at hc
    rcases hc with h1 | h1
    · exact ih c h1
    · subst h1; exact Nat.zero_le 1
  | clone t _ ih =>
    intro c hc
    rw [clone_cells] at hc
    rcases List.mem_append.mp hc with h1 | h1
    · exact ih c h1
    · rw [List.mem_singleton.mp h1]; exact Nat.zero_le 1
  | dropTok t _ heq ih =>
    intro c hc
    rw [Sys.dropToken] at heq
    split at heq
    · exact absurd heq (by simp)
    · rename_i c0 hg
      cases hs : c0.set_dropped with
      | error e => rw [hs] at heq; exact absurd heq (by simp [Except.map])
      | ok c1 =>
        rw [hs] at heq
        simp only [Except.map, Except.ok.injEq] at heq
        subst heq
        have hc1 : c1 = ⟨1⟩ := set_dropped_eq_ok hs
        dsimp at hc
        rcases List.mem_or_eq_of_mem_set hc with h1 | h1
        · exact ih c h1
        · rw [h1, hc1]
  | die _ ih => exact ih

theorem regCells_subset {s : Sys} {c : DropState} (hc : c ∈ s.regCells) : c ∈ s.cells := by
  rcases List.mem_filterMap.mp hc with ⟨i, _, hi⟩
  exact List.get?_mem hi

theorem set_dropped_ok_source {s s' : DropState} (h : s.set_dropped = .ok s') : s = ⟨0⟩ := by
  obtain ⟨c⟩ := s
  match c with
  | 0 => rfl
  | 1 => exact absurd h (by simp [DropState.set_dropped])
  | n + 2 => exact absurd h (by simp [DropState.set_dropped])

theorem dropToken_ok_iff {s s' : Sys} {t : DropToken} :
    s.dropToken t = .ok s' ↔
      s.cells.get? t.state = some ⟨0⟩
      ∧ s' = ⟨s.regAlive, s.cells.set t.state ⟨1⟩, s.reg⟩ := by
  constructor
  · intro heq
    rw [Sys.dropToken] at heq
    split at heq
    · exact absurd heq (by simp)
    · rename_i c0 hg
      cases hs : c0.set_dropped with
      | error e => rw [hs] at heq; exact absurd heq (by simp [Except.map])
      | ok c1 =>
        rw [hs] at heq
        simp only [Except.map, Except.ok.injEq] at heq
        have hc1 : c1 = ⟨1⟩ := set_dropped_eq_ok hs
        have hc0 : c0 = ⟨0⟩ := set_dropped_ok_source hs
        rw [hc0] at hg
        rw [hc1] at heq
        exact ⟨hg, heq.symm⟩
  · rintro ⟨hg, rfl⟩
    rw [Sys.dropToken, hg]
    rfl

theorem dropToken_already {s : Sys} {t : DropToken}
    (hg : s.cells.get? t.state = some ⟨1⟩) :
    s.dropToken t = .error "already dropped" := by
  rw [Sys.dropToken, hg]
  rfl

/-- Claim C1: destruction of a `DropCheck` evaluates `all_dropped()` over every
tracked `DropState` and panics with "not all tokens dropped" iff at least one
tracked cell's counter is not `1`; if every tracked counter is `1` (including
the empty registry), destruction completes without panicking.  Quantified over
every registry state the program can build (`Sys.Reachable`), whose cells all
carry counters in `{0, 1}`. -/
theorem registry_drop_leak_check (s : Sys) (hs : s.Reachable) :
    (s.dropReg = .error "not all tokens dropped" ↔ ∃ c ∈ s.regCells, c.count ≠ 1)
  ∧ (s.dropReg = .ok () ↔ ∀ c ∈ s.regCells, c.count = 1) := by
  have h01 : ∀ c ∈ s.regCells, c.count ≤ 1 :=
    fun c hc => hs.counts_le_one c (regCells_subset hc)
  have hall := all_dropped_eq_of_le_one _ h01
  unfold Sys.dropReg dropCheckDrop
  rw [hall]
  cases hb : (s.regCells).all (fun c => c.count == 1) with
  | false =>
    obtain ⟨x, hx, hxc⟩ := List.all_eq_false.mp hb
    refine ⟨iff_of_true rfl ⟨x, hx, by simpa using hxc⟩, iff_of_false (by simp) ?_⟩
    intro hforall
    exact (by simpa using hxc : x.count ≠ 1) (hforall x hx)
  | true =>
    have hall1 := List.all_eq_true.mp hb
    refine ⟨iff_of_false (by simp) ?_, iff_of_true rfl fun c hc => by simpa using hall1 c hc⟩
    rintro ⟨x, hx, hxc⟩
    exact hxc (by simpa using hall1 x hx)

/-- A fresh registry destroys cleanly: `registry_drop_leak_check` at the
concrete reachable state `Sys.init`. -/
theorem registry_drop_leak_check_witness : Sys.init.dropReg = .ok () :=
  (registry_drop_leak_check Sys.init Sys.Reachable.init).2.mpr
    (by simp [Sys.init, Sys.regCells])

/-- Claim C2: `set_dropped` (invoked by `impl Drop for DropToken`) transitions
the counter from `0` to `1`; a prior value of `1` panics with
"already dropped", and this happens whatever the value of `regAlive` (the
registry is never consulted); any prior value outside `{0, 1}` panics with the
internal-consistency message. -/
theorem set_dropped_transition (s : DropState) (sys : Sys) (t : DropToken) :
    (s.count = 0 → s.set_dropped = .ok ⟨1⟩)
  ∧ (s.count = 1 → s.set_dropped = .error "already dropped")
  ∧ (2 ≤ s.count → s.set_dropped = .error ("invalid drop count: " ++ toString s.count))
  ∧ (sys.cells.get? t.state = some ⟨1⟩ → sys.dropToken t = .error "already dropped") := by
  obtain ⟨c⟩ := s
  refine ⟨?_, ?_, ?_, fun hg => dropToken_already hg⟩
  · rintro rfl; rfl
  · rintro rfl; rfl
  · intro h2
    match c, h2 with
    | n + 2, _ => rfl

/-- `set_dropped_transition` applied at counters `0`, `1`, `2`, and at a
system whose registry is already dead (`regAlive = false`), showing the
double-destruction panic fires regardless. -/
theorem set_dropped_transition_witness :
    DropState.set_dropped ⟨0⟩ = .ok ⟨1⟩
  ∧ DropState.set_dropped ⟨1⟩ = .error "already dropped"
  ∧ DropState.set_dropped ⟨2⟩ = .error ("invalid drop count: " ++ toString 2)
  ∧ Sys.dropToken ⟨false, [⟨1⟩], []⟩ ⟨true, 0⟩ = .error "already dropped" :=
  ⟨(set_dropped_transition ⟨0⟩ Sys.init ⟨true, 0⟩).1 rfl,
   (set_dropped_transition ⟨1⟩ Sys.init ⟨true, 0⟩).2.1 rfl,
   (set_dropped_transition ⟨2⟩ Sys.init ⟨true, 0⟩).2.2.1 (by decide),
   (set_dropped_transition ⟨0⟩ ⟨false, [⟨1⟩], []⟩ ⟨true, 0⟩).2.2.2 rfl⟩

/-- Claim C3 (code bug): destruction of a `DropState` succeeds silently at
counter `1` and panics "token not dropped" at counter `0`, as claimed; but at a
counter outside `{0, 1}` the source's wildcard arm reads
`panic!("invalid drop count: {}")` with no argument for the format string, so
the panic message is the literal text `invalid drop count: \x7b\x7d` and does
NOT report the offending counter value (the two sibling panic sites in
`is_not_dropped` and `set_dropped` do pass the value). -/
theorem drop_state_drop_behaviour :
    DropState.dropImpl ⟨1⟩ = .ok ()
  ∧ DropState.dropImpl ⟨0⟩ = .error "token not dropped"
  ∧ DropState.dropImpl ⟨2⟩ = .error "invalid drop count: \x7b\x7d"
  ∧ DropState.dropImpl ⟨2⟩ ≠ .error ("invalid drop count: " ++ toString 2) :=
  ⟨rfl, rfl, rfl, fun h => absurd (Except.error.inj h) (by decide)⟩

/-- Claim C4: `none_dropped()` on a registry state returns `true` iff every
tracked cell's counter is `0`; vacuously `true` at zero issuances. -/
theorem none_dropped_spec (s : Sys) :
    (s.noneDropped = .ok true ↔ ∀ c ∈ s.regCells, c.count = 0)
  ∧ Sys.init.noneDropped = .ok true :=
  ⟨none_dropped_iff_all_zero s.regCells, rfl⟩

/-- Claim C5: `all_dropped()` on a registry state returns `true` iff every
tracked cell's counter is `1`; vacuously `true` at zero issuances. -/
theorem all_dropped_spec (s : Sys) :
    (s.allDropped = .ok true ↔ ∀ c ∈ s.regCells, c.count = 1)
  ∧ Sys.init.allDropped = .ok true :=
  ⟨all_dropped_iff_all_one s.regCells, rfl⟩

theorem clone_state (t : DropToken) (s : Sys) :
    (t.clone s).2.state = s.cells.length := by
  unfold DropToken.clone
  split <;> rfl

/-- Claim C6: cloning a `DropToken` allocates a brand-new cell with counter `0`
(the last slot of the heap); if the `Weak` back-reference upgrades (token has a
real back-reference and the registry is alive) the new cell is appended to the
registry's `Vec` and the clone keeps a back-reference to it; otherwise the
registry's `Vec` is untouched, the clone's back-reference is `Weak::new()`, and
no panics occur (`clone` is total); dropping any token only changes the counter
of its own cell, so clone and original are independent. -/
theorem token_clone_spec (s : Sys) (t : DropToken) :
    ((t.clone s).1.cells = s.cells ++ [DropState.new]
      ∧ (t.clone s).2.state = s.cells.length
      ∧ (t.clone s).1.cells.get? (t.clone s).2.state = some ⟨0⟩)
  ∧ ((t.hasSet && s.regAlive) = true →
      (t.clone s).1.reg = s.reg ++ [s.cells.length] ∧ (t.clone s).2.hasSet = true)
  ∧ ((t.hasSet && s.regAlive) = false →
      (t.clone s).1.reg = s.reg ∧ (t.clone s).2.hasSet = false)
  ∧ (t.state < s.cells.length → (t.clone s).2.state ≠ t.state)
  ∧ (∀ (u : DropToken) (s' : Sys), s.dropToken u = .ok s' →
      ∀ j, j ≠ u.state → s'.cells.get? j = s.cells.get? j) := by
  refine ⟨⟨clone_cells t s, clone_state t s, ?_⟩, ?_, ?_, ?_, ?_⟩
  · rw [clone_cells, clone_state]
    exact List.get?_concat_length _ _
  · intro hb
    simp [DropToken.clone, hb]
  · intro hb
    simp [DropToken.clone, hb]
  · intro hlt
    rw [clone_state]
    omega
  · intro u s' h j hj
    obtain ⟨hg, rfl⟩ := dropToken_ok_iff.mp h
    exact List.get?_set_ne _ _ (Ne.symm hj)

/-- `token_clone_spec` at concrete states: a clone with the registry alive is
registered, a clone with the registry dead is not, the clone's cell differs
from the original's, and dropping one cell leaves the other unread. -/
theorem token_clone_spec_witness :
    ((DropToken.mk true 0).clone ⟨true, [⟨0⟩], [0]⟩).1.reg = [0] ++ [1]
  ∧ ((DropToken.mk true 0).clone ⟨false, [⟨0⟩], [0]⟩).1.reg = [0]
  ∧ ((DropToken.mk true 0).clone ⟨true, [⟨0⟩], [0]⟩).2.state ≠ 0
  ∧ (Sys.mk true [⟨0⟩, ⟨1⟩] [0, 1]).cells.get? 0 = (Sys.mk true [⟨0⟩, ⟨0⟩] [0, 1]).cells.get? 0 :=
  ⟨((token_clone_spec ⟨true, [⟨0⟩], [0]⟩ ⟨true, 0⟩).2.1 rfl).1,
   ((token_clone_spec ⟨false, [⟨0⟩], [0]⟩ ⟨true, 0⟩).2.2.1 rfl).1,
   (token_clone_spec ⟨true, [⟨0⟩], [0]⟩ ⟨true, 0⟩).2.2.2.1 (by decide),
   (token_clone_spec ⟨true, [⟨0⟩, ⟨0⟩], [0, 1]⟩ ⟨true, 0⟩).2.2.2.2
     ⟨true, 1⟩ ⟨true, [⟨0⟩, ⟨1⟩], [0, 1]⟩ rfl 0 (by decide)⟩

/-- Claim C7: `pair()` performs exactly the state change of `token()` and
returns the same token, plus a second handle that is the very same cell; the
handle reads `is_dropped = ok false` at issuance, and dropping the companion
token succeeds and flips the handle's read to `is_dropped = ok true`. -/
theorem pair_spec (s : Sys) :
    ((s.pair).1 = (s.token).1 ∧ (s.pair).2.1 = (s.token).2)
  ∧ (s.pair).2.2 = (s.pair).2.1.state
  ∧ ((s.pair).1.cells.get? (s.pair).2.2).map DropState.is_dropped = some (.ok false)
  ∧ ∃ s2, (s.pair).1.dropToken (s.pair).2.1 = .ok s2
       ∧ (s2.cells.get? (s.pair).2.2).map DropState.is_dropped = some (.ok true) := by
  refine ⟨⟨rfl, rfl⟩, rfl, ?_, ?_⟩
  · show (((s.cells ++ [DropState.new]).get? s.cells.length).map DropState.is_dropped)
       = some (.ok false)
    rw [List.get?_concat_length]
    rfl
  · refine ⟨⟨s.regAlive, (s.cells ++ [DropState.new]).set s.cells.length ⟨1⟩,
        s.reg ++ [s.cells.length]⟩, ?_, ?_⟩
    · apply dropToken_ok_iff.mpr
      refine ⟨?_, rfl⟩
      show (s.cells ++ [DropState.new]).get? s.cells.length = some ⟨0⟩
      exact List.get?_concat_length _ _
    · show ((((s.cells ++ [DropState.new]).set s.cells.length ⟨1⟩).get? s.cells.length).map
          DropState.is_dropped) = some (.ok true)
      rw [List.get?_set_eq, List.get?_concat_length]
      rfl

/-- Claim C8 as stated is false at N = 1, M = 0: after issuing one token from a
fresh registry and destroying exactly zero of them (0 < 1), `none_dropped()`
returns `true`, not `false`. -/
theorem issuance_count_counterexample :
    none_dropped (Sys.init.token).1.regCells = .ok true
  ∧ none_dropped (Sys.init.token).1.regCells ≠ .ok false :=
  ⟨rfl, fun h => absurd (Except.ok.inj h) (by decide)⟩

/-- Claim C8 amended (M = 0 excluded): over tracked cells with legal counters,
if the number of destroyed tokens M satisfies 0 < M < N (N the number issued,
M the number of cells at counter `1`), then `none_dropped()` and
`all_dropped()` both return `false`; if M = N, `all_dropped()` returns
`true`. -/
theorem issuance_count_amended (l : List DropState) (h01 : ∀ s ∈ l, s.count ≤ 1) :
    (0 < l.countP (fun s => s.count == 1) → l.countP (fun s => s.count == 1) < l.length →
        none_dropped l = .ok false ∧ all_dropped l = .ok false)
  ∧ (l.countP (fun s => s.count == 1) = l.length → all_dropped l = .ok true) := by
  constructor
  · intro hM hMN
    obtain ⟨x, hx, hx1⟩ := List.countP_pos.mp hM
    have hx1' : x.count = 1 := by simpa using hx1
    constructor
    · rw [none_dropped_eq_of_le_one l h01,
        List.all_eq_false.mpr ⟨x, hx, by simp [hx1']⟩]
    · have hne : ¬ ∀ a ∈ l, (fun s => s.count == 1) a = true := by
        intro hall
        exact absurd (List.countP_eq_length.mpr hall) (Nat.ne_of_lt hMN)
      push_neg at hne
      obtain ⟨y, hy, hy1⟩ := hne
      rw [all_dropped_eq_of_le_one l h01, List.all_eq_false.mpr ⟨y, hy, hy1⟩]
  · intro hall
    rw [all_dropped_eq_of_le_one l h01,
      List.all_eq_true.mpr (List.countP_eq_length.mp hall)]

/-- `issuance_count_amended` at N = 2, M = 1 (one destroyed, one live) and at
N = M = 1 (all destroyed). -/
theorem issuance_count_amended_witness :
    (none_dropped [⟨1⟩, ⟨0⟩] = .ok false ∧ all_dropped [⟨1⟩, ⟨0⟩] = .ok false)
  ∧ all_dropped [(⟨1⟩ : DropState)] = .ok true :=
  ⟨(issuance_count_amended [⟨1⟩, ⟨0⟩] (by decide)).1 (by decide) (by decide),
   (issuance_count_amended [⟨1⟩] (by decide)).2 (by decide)⟩

/-- Claim C9: the registry's `Vec` only grows — `token` and `pair` append one
entry, a clone either appends one entry (registry alive) or leaves the `Vec`
unchanged, and dropping a token leaves the `Vec` and the heap's length
untouched: the dropped cell stays listed with only its counter changed (to
`1`) and every other cell unchanged.  `none_dropped`/`all_dropped` take
`&self` under a read lock and are embedded as pure functions of the state. -/
theorem registry_only_grows (s : Sys) :
    ((s.token).1.reg = s.reg ++ [s.cells.length]
      ∧ (s.token).1.cells = s.cells ++ [DropState.new])
  ∧ ((s.pair).1.reg = s.reg ++ [s.cells.length]
      ∧ (s.pair).1.cells = s.cells ++ [DropState.new])
  ∧ (∀ t : DropToken,
      (t.clone s).1.reg = s.reg ++ [s.cells.length] ∨ (t.clone s).1.reg = s.reg)
  ∧ (∀ (t : DropToken) (s' : Sys), s.dropToken t = .ok s' →
      s'.reg = s.reg ∧ s'.cells.length = s.cells.length
      ∧ (∀ j, j ≠ t.state → s'.cells.get? j = s.cells.get? j)
      ∧ s'.cells.get? t.state = some ⟨1⟩) := by
  refine ⟨⟨rfl, rfl⟩, ⟨rfl, rfl⟩, ?_, ?_⟩
  · intro t
    unfold DropToken.clone
    split
    · exact Or.inl rfl
    · exact Or.inr rfl
  · intro t s' h
    obtain ⟨hg, rfl⟩ := dropToken_ok_iff.mp h
    refine ⟨rfl, by simp, ?_, ?_⟩
    · intro j hj
      exact List.get?_set_ne _ _ (Ne.symm hj)
    · show (s.cells.set t.state ⟨1⟩).get? t.state = some ⟨1⟩
      rw [List.get?_set_eq, hg]
      rfl

/-- `registry_only_grows` at a concrete one-token registry: dropping the token
keeps the entry listed (`reg` unchanged) with its counter now `1`. -/
theorem registry_only_grows_witness :
    (Sys.mk true [⟨1⟩] [0]).reg = (Sys.mk true [⟨0⟩] [0]).reg
  ∧ (Sys.mk true [⟨1⟩] [0]).cells.get? 0 = some ⟨1⟩ :=
  ⟨((registry_only_grows ⟨true, [⟨0⟩], [0]⟩).2.2.2 ⟨true, 0⟩ ⟨true, [⟨1⟩], [0]⟩ rfl).1,
   ((registry_only_grows ⟨true, [⟨0⟩], [0]⟩).2.2.2 ⟨true, 0⟩ ⟨true, [⟨1⟩], [0]⟩ rfl).2.2.2⟩

/-- Claim C10: at a counter in `{0, 1}`, `is_dropped()` returns exactly the
negation of `is_not_dropped()` (both pure reads of the same counter); at a
counter outside `{0, 1}` both panic with a message reporting the offending
value. -/
theorem is_dropped_is_not_dropped (s : DropState) :
    (s.count ≤ 1 → ∃ b, s.is_dropped = .ok b ∧ s.is_not_dropped = .ok (!b))
  ∧ (2 ≤ s.count →
      s.is_dropped = .error ("invalid drop count: " ++ toString s.count)
      ∧ s.is_not_dropped = .error ("invalid drop count: " ++ toString s.count)) := by
  obtain ⟨c⟩ := s
  constructor
  · intro h1
    interval_cases c
    · exact ⟨false, rfl, rfl⟩
    · exact ⟨true, rfl, rfl⟩
  · intro h2
    match c, h2 with
    | n + 2, _ => exact ⟨rfl, rfl⟩

/-- `is_dropped_is_not_dropped` at counters `0` and `2`. -/
theorem is_dropped_is_not_dropped_witness :
    (∃ b, DropState.is_dropped ⟨0⟩ = .ok b ∧ DropState.is_not_dropped ⟨0⟩ = .ok (!b))
  ∧ (DropState.is_dropped ⟨2⟩ = .error ("invalid drop count: " ++ toString 2)
     ∧ DropState.is_not_dropped ⟨2⟩ = .error ("invalid drop count: " ++ toString 2)) :=
  ⟨(is_dropped_is_not_dropped ⟨0⟩).1 (by decide),
   (is_dropped_is_not_dropped ⟨2⟩).2 (by decide)⟩
